import Mathlib

/-!
Verification development for the n1fty sargability analyzer and streaming
result pipeline (package `n1fty`, files `index.go` and the response-handler
file).  The Go code is shallowly embedded: pure matching logic becomes Lean
functions over explicit data, the stateful response handler becomes a step
function on an explicit state type with environment observations passed as
inputs, and machine integers become `Int`/`Nat` (no overflow is relevant for
any statement made here).

External collaborators that live outside this repository's sources
(`util.ParseQueryToSearchRequest`, `util.ConvertValObjectToIndexMapping`,
`util.ProcessIndexMapping`, `util.CheckForPagination`, the gRPC stream, the
bleve search-request payload) are represented by oracle inputs or, where a
claim depends on them, by definitions whose doc comments start with
"Modelled from the spec:".
-/

namespace N1fty

/-- `util.SearchField`: the exact-match key of the field catalog.
Go struct fields Name, Type, Analyzer, DateFormat (all strings;
Type is one of "", "boolean", "number", "text", "datetime", "geopoint"). -/
structure SearchField where
  name : String
  type : String
  analyzer : String
  dateFormat : String
deriving DecidableEq, Repr

/-- The field catalog `map[util.SearchField]bool` of an `FTSIndex`
(value = "this exact key is a dynamic mapping").  A Go map with unique
keys is embedded as an association list queried by `lookupField`. -/
abbrev FieldCatalog := List (SearchField × Bool)

/-- Go map lookup `i.searchableFields[f]`: `some b` when the exact
4-tuple key is present, `none` otherwise. -/
def lookupField : FieldCatalog → SearchField → Option Bool
  | [], _ => none
  | (k, v) :: rest, f => if k = f then some v else lookupField rest f

/-- The per-index matching data of `FTSIndex` (index.go lines 38-54):
identity (name = indexDef.Name, uuid = indexDef.UUID), the field catalog,
the declared total indexed-field count, the top-level-dynamic flag, the
`_all`-field flag and the default analyzer / datetime parser. -/
structure FTSIndex where
  name : String
  uuid : String
  searchableFields : FieldCatalog
  indexedCount : Int
  dynamic : Bool
  allFieldSearchable : Bool
  defaultAnalyzer : String
  defaultDateTimeParser : String
deriving DecidableEq, Repr

/-- Dot-joined path, `strings.Join`-style. -/
def dotJoin (parts : List String) : String := String.intercalate "." parts

/-- Worker for `splitAtDot`: splits a character list at every '.',
keeping empty components, accumulating the current component reversed. -/
def splitCharsAtDot : List Char → List Char → List String
  | [], acc => [String.mk acc.reverse]
  | ch :: rest, acc =>
    if ch = '.' then String.mk acc.reverse :: splitCharsAtDot rest []
    else splitCharsAtDot rest (ch :: acc)

/-- Go's `strings.Split(name, ".")`: split at every dot, keeping empty
components; the empty string yields `[""]`.  (Spelled out structurally
rather than via `String.splitOn` so that concrete instances reduce in
the kernel.) -/
def splitAtDot (s : String) : List String := splitCharsAtDot s.data []

/-- The successively longer dot-joined proper prefixes probed by the
ancestor walk: for parts `[a, b, c]` these are `"a"` and `"a.b"`
(index.go lines 505-526: `entry` starts as the first component and the
loop checks before each extension, so exactly 1..len-1 components). -/
def ancestors (parts : List String) : List String :=
  (List.range (parts.length - 1)).map (fun k => dotJoin (parts.take (k + 1)))

/-- `isParentFieldSearchable` (index.go lines 497-534): split the name at
".", give up when there is no proper prefix, otherwise succeed iff some
proper prefix — keyed with the query field's analyzer, empty type and
empty date format — is recorded in the catalog as dynamic. -/
def isParentFieldSearchable (i : FTSIndex) (f : SearchField) : Bool :=
  if (splitAtDot f.name).length ≤ 1 then false
  else (ancestors (splitAtDot f.name)).any (fun p =>
    (lookupField i.searchableFields
      { name := p, type := "", analyzer := f.analyzer, dateFormat := "" }).getD false)

/-- Default filling for a query field with known type (index.go lines
582-590): a text field without analyzer gets the index default analyzer
and a cleared date format; a datetime field without date format gets the
index default parser and a cleared analyzer. -/
def fillDefaults (i : FTSIndex) (f : SearchField) : SearchField :=
  if f.type = "text" ∧ f.analyzer = "" then
    { f with analyzer := i.defaultAnalyzer, dateFormat := "" }
  else if f.type = "datetime" ∧ f.dateFormat = "" then
    { f with analyzer := "", dateFormat := i.defaultDateTimeParser }
  else f

/-- Catalog verdict for one fully-typed query field (index.go lines
592-604 and the probe body 560-570): an exact hit marked dynamic means the
path is a namespace, not a leaf — fail; a non-dynamic hit succeeds; a miss
falls back to the ancestor walk. -/
def catalogHit (i : FTSIndex) (f : SearchField) : Bool :=
  match lookupField i.searchableFields f with
  | some true => false
  | some false => true
  | none => isParentFieldSearchable i f

/-- The fixed probe priority for a query field whose type is unknown
(index.go line 551). -/
def typeProbes : List String := ["boolean", "number", "text", "datetime", "geopoint"]

/-- The probe loop (index.go lines 548-579).  The Go loop mutates one
field value: the probed type is written, text fills the analyzer with the
default, datetime fills the date format, and after a failed probe all
three of type, analyzer and date format are reset to "" (so probes after
the first run with an empty analyzer/date format even if the original
field carried one).  The carried field value is threaded explicitly. -/
def probeTypes (i : FTSIndex) : List String → SearchField → Bool
  | [], _ => false
  | typ :: rest, f0 =>
    let f1 : SearchField :=
      if typ = "text" then { f0 with type := typ, analyzer := i.defaultAnalyzer }
      else if typ = "datetime" then { f0 with type := typ, dateFormat := i.defaultDateTimeParser }
      else { f0 with type := typ }
    if catalogHit i f1 then true
    else probeTypes i rest { f1 with type := "", analyzer := "", dateFormat := "" }

/-- Sargability of one query field against the catalog (the body of the
`for f := range queryFields` loop, index.go lines 536-606): a nameless
field needs the `_all` field; a typeless field is probed over all types;
a typed field is default-filled and then resolved exactly or through the
ancestor walk. -/
def fieldSargable (i : FTSIndex) (f : SearchField) : Bool :=
  if f.name = "" then i.allFieldSearchable
  else if f.type = "" then probeTypes i typeProbes f
  else catalogHit i (fillDefaults i f)

/-- The top-level-dynamic compatibility test (index.go lines 477-484):
every query field's analyzer is empty or equals the index default. -/
def dynamicCompatible (i : FTSIndex) (queryFields : List SearchField) : Bool :=
  queryFields.all (fun f => f.analyzer == "" || f.analyzer == i.defaultAnalyzer)

/-- The result of `util.ProcessIndexMapping` applied to an inline index
mapping supplied through the "index" option (only the components
index.go lines 437-451 consume: the searchable-field catalog, the
dynamic flag and the two defaults).  `ConvertValObjectToIndexMapping`
and `ProcessIndexMapping` themselves are util code outside this file's
sources; an OBJECT-typed option value is embedded as carrying these
already-processed components. -/
structure InlineMapping where
  searchableFields : FieldCatalog
  dynamic : Bool
  defaultAnalyzer : String
  defaultDateTimeParser : String
deriving DecidableEq, Repr

/-- The runtime shape of an options entry such as options.Field("index")
or options.Field("indexUUID"): an OBJECT (inline mapping), a STRING, or
some other value type (which the Go code ignores). -/
inductive IndexOptionVal where
  | obj (m : InlineMapping)
  | str (s : String)
  | other
deriving DecidableEq, Repr

/-- The options value as consumed by buildQueryAndCheckIfSargable
(index.go lines 414-472): the optional "index" entry and the optional
"indexUUID" entry. -/
structure OptionsVal where
  index : Option IndexOptionVal
  indexUUID : Option IndexOptionVal
deriving DecidableEq, Repr

/-- The opaque cross-candidate context map (Go `map[string]interface`
threaded through repeated Sargable calls): the cached "query_fields"
entry, whether a "search_request" entry was stored, and the cached
"index_mapping" entry. -/
structure SargCtx where
  queryFields : Option (List SearchField)
  searchRequest : Bool
  indexMapping : Option InlineMapping
deriving DecidableEq, Repr

/-- A fresh opaque context (Go nil / empty map). -/
def SargCtx.empty : SargCtx := ⟨none, false, none⟩

/-- `sargableRV` (index.go lines 260-266).  `count` is the matched count
(Go int), `indexedCount` the reported indexed count (Go int64),
`searchRequestSet` mirrors rv.searchRequest being non-nil, `ctx` the
returned opaque map and `err` the returned error.  In this embedding the
external parsers are total, so every reachable path leaves `err = none`;
the Go error paths (malformed query / inline mapping payloads) live in
util code outside these sources. -/
structure SargableRV where
  count : Int
  indexedCount : Int
  searchRequestSet : Bool
  ctx : SargCtx
  err : Option String
deriving DecidableEq, Repr

/-- The not-sargable return `return rv` (count and indexedCount keep
their zero values, the context is still handed back). -/
def failRV (c : SargCtx) : SargableRV :=
  { count := 0, indexedCount := 0, searchRequestSet := c.searchRequest, ctx := c, err := none }

/-- Step 1 of buildQueryAndCheckIfSargable (index.go lines 391-410):
reuse the context's "query_fields"/"search_request" entries when present,
otherwise parse the field+query (`parsed` is the field set that
`util.ParseQueryToSearchRequest` — util code outside these sources, a
deterministic function of the field hint and query value — would return)
and cache both entries. -/
def resolveQueryFields (parsed : List SearchField) (c : SargCtx) :
    List SearchField × SargCtx :=
  match c.queryFields with
  | none => (parsed, { c with queryFields := some parsed, searchRequest := true })
  | some fs => (fs, c)

/-- The inline-mapping per-field agreement loop (index.go lines 441-445):
every field the inline mapping declares must be present in the candidate
catalog under the same exact key with the same dynamic-ness. -/
def inlineFieldsCompatible (i : FTSIndex) (im : InlineMapping) : Bool :=
  im.searchableFields.all (fun p =>
    lookupField i.searchableFields p.1 == some p.2)

/-- The inline-mapping defaults check (index.go lines 447-451): a
non-empty inline default analyzer / date-time parser must equal the
candidate's default. -/
def inlineDefaultsCompatible (i : FTSIndex) (im : InlineMapping) : Bool :=
  (im.defaultAnalyzer == "" || im.defaultAnalyzer == i.defaultAnalyzer) &&
  (im.defaultDateTimeParser == "" || im.defaultDateTimeParser == i.defaultDateTimeParser)

/-- The "index" option check (index.go lines 416-462).  An OBJECT entry
is converted once and cached in the context; unless both the inline
mapping and the candidate are non-dynamic the compatibility checks are
skipped; a STRING entry must equal the candidate's name.  Returns the
(possibly updated) context and whether the candidate survives. -/
def checkIndexOption (i : FTSIndex) (c : SargCtx) :
    Option IndexOptionVal → SargCtx × Bool
  | some (.obj raw) =>
    let im := c.indexMapping.getD raw
    let c2 := { c with indexMapping := some im }
    if !im.dynamic && !i.dynamic then
      (c2, inlineFieldsCompatible i im && inlineDefaultsCompatible i im)
    else (c2, true)
  | some (.str s) => (c, i.name == s)
  | _ => (c, true)

/-- The "indexUUID" option check (index.go lines 465-471): only a
STRING-typed entry is compared, against the candidate's UUID. -/
def checkUUIDOption (i : FTSIndex) : Option IndexOptionVal → Bool
  | some (.str u) => i.uuid == u
  | _ => true

/-- Both option gates in source order (index.go lines 414-472): the
"index" entry first (its failure returns before the UUID is looked at),
then "indexUUID".  Returns the context to hand back and whether the
candidate survives the option checks. -/
def optionsGate (i : FTSIndex) (options : Option OptionsVal) (c : SargCtx) :
    SargCtx × Bool :=
  match options with
  | none => (c, true)
  | some o =>
    let co := checkIndexOption i c o.index
    if co.2 then (co.1, checkUUIDOption i o.indexUUID) else (co.1, false)

/-- The per-field resolution tail (index.go lines 536-622): every query
field must be individually sargable; zero query fields are acceptable
only with `_all` searchable, in which case the matched count becomes the
declared indexed-field count. -/
def resolveFieldsVerdict (i : FTSIndex) (queryFields : List SearchField)
    (c : SargCtx) : SargableRV :=
  if queryFields.all (fieldSargable i) then
    if queryFields.length = 0 then
      if i.allFieldSearchable then
        { count := i.indexedCount, indexedCount := i.indexedCount,
          searchRequestSet := c.searchRequest, ctx := c, err := none }
      else failRV c
    else
      { count := (queryFields.length : Int), indexedCount := i.indexedCount,
        searchRequestSet := c.searchRequest, ctx := c, err := none }
  else failRV c

/-- Steps 3-5 of buildQueryAndCheckIfSargable (index.go lines 474-622):
the top-level-dynamic fast path — which on analyzer incompatibility does
NOT fail but falls through to per-field resolution — followed by the
per-field loop and the aggregate counts. -/
def sargableCore (i : FTSIndex) (queryFields : List SearchField) (c : SargCtx) :
    SargableRV :=
  if i.dynamic && dynamicCompatible i queryFields then
    { count := if queryFields.length = 0 then i.indexedCount else (queryFields.length : Int),
      indexedCount := i.indexedCount, searchRequestSet := c.searchRequest,
      ctx := c, err := none }
  else resolveFieldsVerdict i queryFields c

/-- `buildQueryAndCheckIfSargable` (index.go lines 378-623): resolve the
query fields through the context, run the option gates, then the dynamic
fast path and per-field resolution. -/
def buildQueryAndCheckIfSargable (i : FTSIndex) (parsed : List SearchField)
    (options : Option OptionsVal) (c0 : SargCtx) : SargableRV :=
  let rq := resolveQueryFields parsed c0
  let g := optionsGate i options rq.2
  if g.2 then sargableCore i rq.1 g.1 else failRV g.1

/- The shape of the raw predicate expression that Sargable scans at plan
time (index.go lines 332-355): object constructs (whose entry names are
themselves expressions), array constructs, string-valued expressions, and
anything else.  The entry/element lists are spelled as their own
inductives so that the scan below is plain structural recursion. -/
mutual
inductive QExpr where
  | obj (entries : QEntries)
  | arr (elems : QList)
  | str (s : String)
  | other
inductive QEntries where
  | nil
  | cons (name : QExpr) (val : QExpr) (rest : QEntries)
inductive QList where
  | nil
  | cons (head : QExpr) (rest : QList)
end

/- The `fetchFields` closure of Sargable (index.go lines 332-353): walk
the expression; an object entry whose name evaluates to the string
"field" and whose value evaluates to a string contributes that string as
a name-only SearchField (and is not recursed into); every other entry
value and every array element is recursed into. -/
mutual
def fetchFields : QExpr → List SearchField
  | .obj entries => fetchFromEntries entries
  | .arr elems => fetchFromList elems
  | .str _ => []
  | .other => []
def fetchFromEntries : QEntries → List SearchField
  | .nil => []
  | .cons n v rest =>
    (match n, v with
     | .str nm, .str s =>
       if nm = "field" then [{ name := s, type := "", analyzer := "", dateFormat := "" }]
       else fetchFields v
     | .str nm, _ => if nm = "field" then [] else fetchFields v
     | _, _ => fetchFields v) ++ fetchFromEntries rest
def fetchFromList : QList → List SearchField
  | .nil => []
  | .cons e rest => fetchFields e ++ fetchFromList rest
end

/-- `math.MaxInt64`. -/
def maxInt64 : Int := 9223372036854775807

/-- The tuple Sargable returns to the planner (index.go line 293):
matched count, indexed count, the `exact` placeholder, the opaque
context and the error. -/
structure SargableResult where
  count : Int
  indexedCount : Int
  exact : Bool
  ctx : SargCtx
  err : Option String
deriving DecidableEq, Repr

/-- Packaging of a buildQueryAndCheckIfSargable result into Sargable's
return tuple (index.go line 375; `exact` is hard-coded true, a documented
placeholder). -/
def toResult (rv : SargableRV) : SargableResult :=
  { count := rv.count, indexedCount := rv.indexedCount, exact := true,
    ctx := rv.ctx, err := rv.err }

/-- `Sargable` (index.go lines 291-376).  `queryAvailable` is whether
`query.Value()` is non-nil; `queryExpr` is the raw predicate expression
scanned at plan time; `parsed` is the oracle for what
`util.ParseQueryToSearchRequest(field, queryVal)` would yield (util code
outside these sources, deterministic in its inputs).  When the query
value is unavailable and the context carries no fields: a top-level
dynamic index with `_all` searchable short-circuits to MaxInt64 counts;
otherwise the expression is scanned for "field" hints, which (when any
are found, deduplicated as the Go set is) are cached in the context
before delegating to buildQueryAndCheckIfSargable. -/
def Sargable (i : FTSIndex) (queryAvailable : Bool) (queryExpr : QExpr)
    (parsed : List SearchField) (options : Option OptionsVal) (c : SargCtx) :
    SargableResult :=
  let cached := c.queryFields.getD []
  if queryAvailable = false ∧ cached.length = 0 then
    if i.dynamic && i.allFieldSearchable then
      { count := maxInt64, indexedCount := maxInt64, exact := true, ctx := c, err := none }
    else
      let fetched := (fetchFields queryExpr).dedup
      let c2 := if fetched.length > 0 then { c with queryFields := some fetched } else c
      toResult (buildQueryAndCheckIfSargable i parsed options c2)
  else toResult (buildQueryAndCheckIfSargable i parsed options c)

/-!  The request builder's pageability check (index.go lines 630-663). -/

/-- A JSON-like runtime value, as far as `pageable` inspects one: an
object with named fields, or anything else. -/
inductive JVal where
  | obj (fields : List (String × JVal))
  | num (n : Int)
  | str (s : String)
  | other

/-- Object-field lookup, `value.Field(key)`. -/
def jfield : List (String × JVal) → String → Option JVal
  | [], _ => none
  | (k, v) :: rest, key => if k = key then some v else jfield rest key

/-- `queryVal.Field("query")` exists and is OBJECT-typed (index.go
line 653). -/
def hasQueryObjectField (v : JVal) : Bool :=
  match v with
  | .obj fields =>
    match jfield fields "query" with
    | some (.obj _) => true
    | _ => false
  | _ => false

/-- Modelled from the spec: `util.CheckForPagination` (util code outside
these sources) — "declares non-pageable whenever the raw query already
embeds its own from/size/sort block": the value carries a top-level
"from", "size" or "sort" entry. -/
def CheckForPagination (v : JVal) : Bool :=
  match v with
  | .obj fields => fields.any (fun p => p.1 == "from" || p.1 == "size" || p.1 == "sort")
  | _ => false

/-- `pageable` (index.go lines 643-663): when the query value is present,
has an OBJECT-typed "query" field and CheckForPagination fires, return
false; otherwise compare offset+limit against the configured maximum
result window (`util.GetBleveMaxResultWindow()`, passed here as
`maxResultWindow`). -/
def pageable (queryVal : Option JVal) (offset limit maxResultWindow : Int) : Bool :=
  match queryVal with
  | some v =>
    if hasQueryObjectField v && CheckForPagination v then false
    else decide (offset + limit ≤ maxResultWindow)
  | none => decide (offset + limit ≤ maxResultWindow)

/-!  The response handler's producer loop (response-handler file,
`handleResponse`).  Each loop iteration receives one stream message,
decodes a hit batch, and routes it: while no backfill store exists and
the remaining channel capacity suffices it delivers directly to the
bounded output channel, otherwise it opens the store (once) and appends.
Observations the producer makes of its concurrent environment — the
channel occupancy `len(entryCh)`, the shared backfill-size ceiling test,
the drain worker's finished flag, and the consumer's stop signal — are
inputs of each step. -/

/-- A decoded hit (only its identity matters to the routing logic; the
document id / score payload is carried opaquely). -/
abbrev Hit := Nat

/-- The per-session configuration the handler reads once:
`getBackfillSpaceLimit()` (a non-positive limit disables backfill
entirely) and the output channel's capacity `cap(entryCh)`. -/
structure HandlerCfg where
  backfillLimit : Int
  chanCap : Nat

/-- One iteration's inputs: the decoded batch (`none` embeds a nil Go
hits slice — a message that decoded to no hits), the observed channel
occupancy, whether the shared spilled-bytes counter exceeds the ceiling
at this iteration's check, whether the drain worker has already finished,
and whether the consumer's stop channel fired during direct delivery. -/
structure HandlerInput where
  hits : Option (List Hit)
  chanLen : Nat
  curBackfillOver : Bool
  drainFinished : Bool
  stopped : Bool

/-- The producer-side session state: whether the backfill store exists
(`tmpfile != nil`), how many stores were ever opened and drain workers
ever started, the sequence of batches appended to the store, the entries
delivered directly to the output channel, and whether the handler has
returned. -/
structure HandlerState where
  storeCreated : Bool
  storesOpened : Nat
  workersStarted : Nat
  store : List (List Hit)
  sent : List Hit
  halted : Bool
deriving DecidableEq, Repr

/-- The state when handleResponse starts. -/
def initialHandlerState : HandlerState :=
  { storeCreated := false, storesOpened := 0, workersStarted := 0,
    store := [], sent := [], halted := false }

/-- One iteration of handleResponse's receive loop (response-handler
file, lines 821-869 of the combined source): when a positive backfill
limit is configured, no store exists yet and the remaining capacity
`cap - len` is smaller than the batch's hit count, open the store and
start the drain worker; if a store exists, check the size ceiling and
the worker's finished flag and then append the batch (a nil batch is
encoded as empty); otherwise deliver a non-nil batch directly, entry by
entry, aborting if the stop channel fires. -/
def handleStep (cfg : HandlerCfg) (s : HandlerState) (inp : HandlerInput) :
    HandlerState :=
  if s.halted then s
  else
    let hits := inp.hits.getD []
    let s1 :=
      if cfg.backfillLimit > 0 ∧ s.storeCreated = false ∧
          (cfg.chanCap : Int) - (inp.chanLen : Int) < (hits.length : Int) then
        { s with storeCreated := true, storesOpened := s.storesOpened + 1,
                 workersStarted := s.workersStarted + 1 }
      else s
    if s1.storeCreated then
      if inp.curBackfillOver then { s1 with halted := true }
      else if inp.drainFinished then { s1 with halted := true }
      else { s1 with store := s1.store ++ [hits] }
    else if inp.hits = none then s1
    else if inp.stopped then { s1 with halted := true }
    else { s1 with sent := s1.sent ++ hits }

/-- The whole receive loop over a finite stream of messages. -/
def runHandler (cfg : HandlerCfg) (inputs : List HandlerInput) : HandlerState :=
  inputs.foldl (handleStep cfg) initialHandlerState

/-- How a search session's stream phase ended (clean end-of-stream,
stream error, cancellation, or the backfill capacity ceiling). -/
inductive ExitKind where
  | endOfStream
  | streamError
  | cancelled
  | capacityExceeded
deriving DecidableEq, Repr

/-- The teardown actions of Search's deferred block (index.go lines
213-222): store doneRequest into backfillSync, wait on the drain
worker's wait group, close the sender (output channel), and clean up the
backfill file. -/
structure TeardownTrace where
  signaledDone : Bool
  waitedForWorker : Bool
  closedChannel : Bool
  deletedBackfillFile : Bool
deriving DecidableEq, Repr

/-- `cleanupBackfills` (response-handler file): close and remove the temp
file when one exists; returns whether the file was deleted. -/
def cleanupBackfills (tmpfileExists : Bool) : Bool := tmpfileExists

/-- Modelled from the spec: the `rh.cleanupBackfill()` method invoked by
Search's deferred teardown is declared in repository code outside these
sources; per the spec's teardown step "delete the backing store" it
applies `cleanupBackfills` to the session's backfill file (which exists
exactly when the store was created). -/
def cleanupBackfill (backfillFileCreated : Bool) : Bool :=
  cleanupBackfills backfillFileCreated

/-- The deferred teardown of Search (index.go lines 213-222), as a
function of the handler state it runs over.  It is installed before the
stream is opened and therefore runs on every exit of the session. -/
def searchTeardown (s : HandlerState) : TeardownTrace :=
  { signaledDone := true, waitedForWorker := true, closedChannel := true,
    deletedBackfillFile := cleanupBackfill s.storeCreated }

/-- A whole session: however the stream phase ended (`e`), the deferred
teardown runs over the final handler state. -/
def searchSessionTrace (cfg : HandlerCfg) (inputs : List HandlerInput)
    (_exit : ExitKind) : TeardownTrace :=
  searchTeardown (runHandler cfg inputs)

/-!  Shared helper lemmas. -/

/-- `List.all` is invariant under permutation — the formal counterpart of
"iterating a Go map in any order yields the same and-of-tests". -/
theorem all_of_perm {α : Type} (p : α → Bool) {l l' : List α}
    (h : l.Perm l') : l.all p = l'.all p := by
  induction h with
  | nil => rfl
  | cons x _ ih => simp [List.all_cons, ih]
  | swap x y l => simp [List.all_cons, ← Bool.and_assoc, Bool.and_comm]
  | trans _ _ ih1 ih2 => exact ih1.trans ih2

/-- The verdict components of a sargableRV (everything except the opaque
context): matched count, indexed count, search-request presence, error. -/
def verdict (rv : SargableRV) : Int × Int × Bool × Option String :=
  (rv.count, rv.indexedCount, rv.searchRequestSet, rv.err)

theorem resolveQF_snd_queryFields (parsed : List SearchField) (c : SargCtx) :
    (resolveQueryFields parsed c).2.queryFields
      = some ((resolveQueryFields parsed c).1) := by
  cases h : c.queryFields with
  | none => simp [resolveQueryFields, h]
  | some fs => simp [resolveQueryFields, h]

theorem resolveQF_of_some (parsed : List SearchField) {c : SargCtx}
    {fs : List SearchField} (h : c.queryFields = some fs) :
    resolveQueryFields parsed c = (fs, c) := by
  unfold resolveQueryFields
  rw [h]

theorem checkIndexOption_fst_queryFields (i : FTSIndex) (c : SargCtx)
    (e : Option IndexOptionVal) :
    ((checkIndexOption i c e).1).queryFields = c.queryFields := by
  cases e with
  | none => rfl
  | some v =>
    cases v with
    | obj m => simp only [checkIndexOption]; split <;> rfl
    | str s => rfl
    | other => rfl

theorem checkIndexOption_fst_searchRequest (i : FTSIndex) (c : SargCtx)
    (e : Option IndexOptionVal) :
    ((checkIndexOption i c e).1).searchRequest = c.searchRequest := by
  cases e with
  | none => rfl
  | some v =>
    cases v with
    | obj m => simp only [checkIndexOption]; split <;> rfl
    | str s => rfl
    | other => rfl

theorem optionsGate_fst_queryFields (i : FTSIndex) (options : Option OptionsVal)
    (c : SargCtx) : ((optionsGate i options c).1).queryFields = c.queryFields := by
  cases options with
  | none => rfl
  | some o =>
    simp only [optionsGate]
    split
    · exact checkIndexOption_fst_queryFields i c o.index
    · exact checkIndexOption_fst_queryFields i c o.index

theorem optionsGate_fst_searchRequest (i : FTSIndex) (options : Option OptionsVal)
    (c : SargCtx) : ((optionsGate i options c).1).searchRequest = c.searchRequest := by
  cases options with
  | none => rfl
  | some o =>
    simp only [optionsGate]
    split
    · exact checkIndexOption_fst_searchRequest i c o.index
    · exact checkIndexOption_fst_searchRequest i c o.index

theorem failRV_ctx (c : SargCtx) : (failRV c).ctx = c := rfl

theorem resolveFieldsVerdict_ctx (i : FTSIndex) (qf : List SearchField)
    (c : SargCtx) : (resolveFieldsVerdict i qf c).ctx = c := by
  unfold resolveFieldsVerdict failRV
  split_ifs <;> rfl

theorem sargableCore_ctx (i : FTSIndex) (qf : List SearchField) (c : SargCtx) :
    (sargableCore i qf c).ctx = c := by
  unfold sargableCore
  split
  · rfl
  · exact resolveFieldsVerdict_ctx i qf c

theorem sargableCore_err (i : FTSIndex) (qf : List SearchField) (c : SargCtx) :
    (sargableCore i qf c).err = none := by
  unfold sargableCore resolveFieldsVerdict failRV
  split_ifs <;> rfl

theorem buildQuery_ctx (i : FTSIndex) (parsed : List SearchField)
    (options : Option OptionsVal) (c : SargCtx) :
    (buildQueryAndCheckIfSargable i parsed options c).ctx
      = (optionsGate i options (resolveQueryFields parsed c).2).1 := by
  simp only [buildQueryAndCheckIfSargable]
  split
  · exact sargableCore_ctx _ _ _
  · rfl

/-- Every reachable path of the embedded analyzer leaves the error unset
(the Go error paths live in the external util parsers, which this
embedding treats as total). -/
theorem buildQuery_err_none (i : FTSIndex) (parsed : List SearchField)
    (options : Option OptionsVal) (c : SargCtx) :
    (buildQueryAndCheckIfSargable i parsed options c).err = none := by
  simp only [buildQueryAndCheckIfSargable]
  split
  · exact sargableCore_err _ _ _
  · rfl

theorem checkIndexOption_idem (i : FTSIndex) (c : SargCtx)
    (e : Option IndexOptionVal) :
    checkIndexOption i (checkIndexOption i c e).1 e = checkIndexOption i c e := by
  cases e with
  | none => rfl
  | some v =>
    cases v with
    | obj m =>
      have h1 : (checkIndexOption i c (some (.obj m))).1
          = { c with indexMapping := some (c.indexMapping.getD m) } := by
        simp only [checkIndexOption]
        split <;> rfl
      rw [h1]
      simp only [checkIndexOption, Option.getD_some]
    | str s => rfl
    | other => rfl

theorem optionsGate_fst (i : FTSIndex) (o : OptionsVal) (c : SargCtx) :
    (optionsGate i (some o) c).1 = (checkIndexOption i c o.index).1 := by
  simp only [optionsGate]
  split <;> rfl

theorem optionsGate_idem (i : FTSIndex) (options : Option OptionsVal) (c : SargCtx) :
    optionsGate i options (optionsGate i options c).1 = optionsGate i options c := by
  cases options with
  | none => rfl
  | some o =>
    rw [optionsGate_fst]
    simp only [optionsGate, checkIndexOption_idem]

theorem buildQuery_idem (i : FTSIndex) (parsed : List SearchField)
    (options : Option OptionsVal) (c : SargCtx) :
    buildQueryAndCheckIfSargable i parsed options
        (buildQueryAndCheckIfSargable i parsed options c).ctx
      = buildQueryAndCheckIfSargable i parsed options c := by
  have hctx := buildQuery_ctx i parsed options c
  have hqf : (buildQueryAndCheckIfSargable i parsed options c).ctx.queryFields
      = some ((resolveQueryFields parsed c).1) := by
    rw [hctx, optionsGate_fst_queryFields, resolveQF_snd_queryFields]
  conv_lhs => rw [buildQueryAndCheckIfSargable,
    resolveQF_of_some parsed hqf, hctx, optionsGate_idem]
  conv_rhs => rw [buildQueryAndCheckIfSargable]

theorem checkIndexOption_congr (i : FTSIndex) (c : SargCtx)
    (q : Option (List SearchField)) (b : Bool) (e : Option IndexOptionVal) :
    checkIndexOption i { c with queryFields := q, searchRequest := b } e
      = ({ (checkIndexOption i c e).1 with queryFields := q, searchRequest := b },
         (checkIndexOption i c e).2) := by
  cases e with
  | none => rfl
  | some v =>
    cases v with
    | obj m =>
      simp only [checkIndexOption]
      split <;> rfl
    | str s => rfl
    | other => rfl

theorem optionsGate_congr (i : FTSIndex) (options : Option OptionsVal) (c : SargCtx)
    (q : Option (List SearchField)) (b : Bool) :
    optionsGate i options { c with queryFields := q, searchRequest := b }
      = ({ (optionsGate i options c).1 with queryFields := q, searchRequest := b },
         (optionsGate i options c).2) := by
  cases options with
  | none => rfl
  | some o =>
    simp only [optionsGate, checkIndexOption_congr]
    split <;> rfl

theorem dynamicCompatible_perm (i : FTSIndex) {qf qf' : List SearchField}
    (h : qf.Perm qf') : dynamicCompatible i qf = dynamicCompatible i qf' := by
  unfold dynamicCompatible
  exact all_of_perm _ h

theorem sargableCore_verdict_congr (i : FTSIndex) {qf qf' : List SearchField}
    {c c' : SargCtx} (hperm : qf.Perm qf') (hsr : c.searchRequest = c'.searchRequest) :
    verdict (sargableCore i qf c) = verdict (sargableCore i qf' c') := by
  have h1 : dynamicCompatible i qf = dynamicCompatible i qf' :=
    dynamicCompatible_perm i hperm
  have h2 : qf.length = qf'.length := hperm.length_eq
  have h3 : qf.all (fieldSargable i) = qf'.all (fieldSargable i) :=
    all_of_perm _ hperm
  unfold sargableCore resolveFieldsVerdict failRV
  rw [h1, h2, h3, hsr]
  split_ifs <;> rfl

theorem buildQuery_verdict_perm (i : FTSIndex) {parsed parsed' : List SearchField}
    (options : Option OptionsVal) (c : SargCtx) (hperm : parsed.Perm parsed') :
    verdict (buildQueryAndCheckIfSargable i parsed options c)
      = verdict (buildQueryAndCheckIfSargable i parsed' options c) := by
  cases hq : c.queryFields with
  | some fs =>
    rw [buildQueryAndCheckIfSargable, buildQueryAndCheckIfSargable,
      resolveQF_of_some parsed hq, resolveQF_of_some parsed' hq]
  | none =>
    have hr : ∀ ps : List SearchField, resolveQueryFields ps c
        = (ps, { c with queryFields := some ps, searchRequest := true }) := by
      intro ps
      unfold resolveQueryFields
      rw [hq]
    rw [buildQueryAndCheckIfSargable, buildQueryAndCheckIfSargable, hr parsed, hr parsed']
    simp only [optionsGate_congr]
    split_ifs
    · exact sargableCore_verdict_congr i hperm rfl
    · rfl

theorem buildQuery_ctx_queryFields (i : FTSIndex) (parsed : List SearchField)
    (options : Option OptionsVal) (c : SargCtx) :
    (buildQueryAndCheckIfSargable i parsed options c).ctx.queryFields
      = some ((resolveQueryFields parsed c).1) := by
  rw [buildQuery_ctx, optionsGate_fst_queryFields, resolveQF_snd_queryFields]

theorem Sargable_eq_short {i : FTSIndex} {qa : Bool} (qe : QExpr)
    (parsed : List SearchField) (options : Option OptionsVal) {c : SargCtx}
    (h1 : qa = false ∧ (c.queryFields.getD []).length = 0)
    (h2 : (i.dynamic && i.allFieldSearchable) = true) :
    Sargable i qa qe parsed options c
      = { count := maxInt64, indexedCount := maxInt64, exact := true,
          ctx := c, err := none } := by
  simp only [Sargable]
  rw [if_pos h1, if_pos h2]

theorem Sargable_eq_fetch {i : FTSIndex} {qa : Bool} (qe : QExpr)
    (parsed : List SearchField) (options : Option OptionsVal) {c : SargCtx}
    (h1 : qa = false ∧ (c.queryFields.getD []).length = 0)
    (h2 : ¬(i.dynamic && i.allFieldSearchable) = true) :
    Sargable i qa qe parsed options c
      = toResult (buildQueryAndCheckIfSargable i parsed options
          (if (fetchFields qe).dedup.length > 0
           then { c with queryFields := some (fetchFields qe).dedup } else c)) := by
  simp only [Sargable]
  rw [if_pos h1, if_neg h2]

theorem Sargable_eq_direct {i : FTSIndex} {qa : Bool} (qe : QExpr)
    (parsed : List SearchField) (options : Option OptionsVal) {c : SargCtx}
    (h1 : ¬(qa = false ∧ (c.queryFields.getD []).length = 0)) :
    Sargable i qa qe parsed options c
      = toResult (buildQueryAndCheckIfSargable i parsed options c) := by
  simp only [Sargable]
  rw [if_neg h1]

theorem Sargable_idem (i : FTSIndex) (qa : Bool) (qe : QExpr)
    (parsed : List SearchField) (options : Option OptionsVal) (c : SargCtx) :
    Sargable i qa qe parsed options (Sargable i qa qe parsed options c).ctx
      = Sargable i qa qe parsed options c := by
  by_cases hqa : qa = false ∧ (c.queryFields.getD []).length = 0
  · by_cases hdyn : (i.dynamic && i.allFieldSearchable) = true
    · rw [Sargable_eq_short qe parsed options hqa hdyn]
      exact Sargable_eq_short qe parsed options hqa hdyn
    · rw [Sargable_eq_fetch qe parsed options hqa hdyn]
      by_cases hfet : (fetchFields qe).dedup.length > 0
      · -- fields were fetched and cached; the second call skips the plan block
        rw [if_pos hfet]
        have hq2 : ¬(qa = false ∧
            (((toResult (buildQueryAndCheckIfSargable i parsed options
                { c with queryFields := some (fetchFields qe).dedup })).ctx).queryFields.getD
              []).length = 0) := by
          intro hcon
          have hcq : ({ c with queryFields := some (fetchFields qe).dedup } :
              SargCtx).queryFields = some (fetchFields qe).dedup := rfl
          have h3 := buildQuery_ctx_queryFields i parsed options
            { c with queryFields := some (fetchFields qe).dedup }
          rw [resolveQF_of_some parsed hcq] at h3
          have h4 := hcon.2
          change ((buildQueryAndCheckIfSargable i parsed options
            { c with queryFields := some (fetchFields qe).dedup }).ctx.queryFields.getD
              []).length = 0 at h4
          rw [h3] at h4
          simp only [Option.getD_some] at h4
          exact absurd h4 (Nat.pos_iff_ne_zero.mp hfet)
        rw [Sargable_eq_direct qe parsed options hq2]
        exact congrArg toResult (buildQuery_idem i parsed options _)
      · -- nothing was fetched; the second call re-runs the (empty) fetch
        rw [if_neg hfet]
        by_cases hq2 : qa = false ∧
            (((toResult (buildQueryAndCheckIfSargable i parsed options c)).ctx).queryFields.getD
              []).length = 0
        · rw [Sargable_eq_fetch qe parsed options hq2 hdyn, if_neg hfet]
          exact congrArg toResult (buildQuery_idem i parsed options c)
        · rw [Sargable_eq_direct qe parsed options hq2]
          exact congrArg toResult (buildQuery_idem i parsed options c)
  · rw [Sargable_eq_direct qe parsed options hqa]
    by_cases hq2 : qa = false ∧
        (((toResult (buildQueryAndCheckIfSargable i parsed options c)).ctx).queryFields.getD
          []).length = 0
    · exfalso
      have hne : ¬((c.queryFields.getD []).length = 0) := fun h => hqa ⟨hq2.1, h⟩
      cases hcq : c.queryFields with
      | none => exact hne (by rw [hcq]; rfl)
      | some fs =>
        have h3 := buildQuery_ctx_queryFields i parsed options c
        rw [resolveQF_of_some parsed hcq] at h3
        have h4 := hq2.2
        change ((buildQueryAndCheckIfSargable i parsed options c).ctx.queryFields.getD
          []).length = 0 at h4
        rw [h3] at h4
        simp only [Option.getD_some] at h4
        exact hne (by rw [hcq]; simpa using h4)
    · rw [Sargable_eq_direct qe parsed options hq2]
      exact congrArg toResult (buildQuery_idem i parsed options c)

theorem verdict_eq_components {a b : SargableRV} (h : verdict a = verdict b) :
    a.count = b.count ∧ a.indexedCount = b.indexedCount ∧
      a.searchRequestSet = b.searchRequestSet ∧ a.err = b.err := by
  unfold verdict at h
  refine ⟨congrArg (fun p => p.1) h, congrArg (fun p => p.2.1) h,
    congrArg (fun p => p.2.2.1) h, congrArg (fun p => p.2.2.2) h⟩

theorem Sargable_verdict_perm (i : FTSIndex) (qa : Bool) (qe : QExpr)
    {parsed parsed' : List SearchField} (options : Option OptionsVal) (c : SargCtx)
    (hperm : parsed.Perm parsed') :
    (Sargable i qa qe parsed options c).count
        = (Sargable i qa qe parsed' options c).count ∧
    (Sargable i qa qe parsed options c).indexedCount
        = (Sargable i qa qe parsed' options c).indexedCount ∧
    (Sargable i qa qe parsed options c).exact
        = (Sargable i qa qe parsed' options c).exact ∧
    (Sargable i qa qe parsed options c).err
        = (Sargable i qa qe parsed' options c).err := by
  by_cases hqa : qa = false ∧ (c.queryFields.getD []).length = 0
  · by_cases hdyn : (i.dynamic && i.allFieldSearchable) = true
    · rw [Sargable_eq_short qe parsed options hqa hdyn,
        Sargable_eq_short qe parsed' options hqa hdyn]
      exact ⟨rfl, rfl, rfl, rfl⟩
    · rw [Sargable_eq_fetch qe parsed options hqa hdyn,
        Sargable_eq_fetch qe parsed' options hqa hdyn]
      have h := verdict_eq_components (buildQuery_verdict_perm i options
        (if (fetchFields qe).dedup.length > 0
         then { c with queryFields := some (fetchFields qe).dedup } else c) hperm)
      exact ⟨h.1, h.2.1, rfl, h.2.2.2⟩
  · rw [Sargable_eq_direct qe parsed options hqa,
      Sargable_eq_direct qe parsed' options hqa]
    have h := verdict_eq_components (buildQuery_verdict_perm i options c hperm)
    exact ⟨h.1, h.2.1, rfl, h.2.2.2⟩

theorem foldl_inv {σ ι : Type} (step : σ → ι → σ) (P : σ → Prop)
    (hstep : ∀ s i, P s → P (step s i)) :
    ∀ (l : List ι) (s : σ), P s → P (l.foldl step s)
  | [], _, h => h
  | i :: l, s, h => foldl_inv step P hstep l (step s i) (hstep s i h)

/-- The store/worker accounting invariant of the response handler: the
number of stores ever opened and of drain workers ever started both track
whether the store currently exists. -/
def HandlerInv (s : HandlerState) : Prop :=
  s.storesOpened = (if s.storeCreated then 1 else 0) ∧
  s.workersStarted = (if s.storeCreated then 1 else 0)

theorem handleStep_inv (cfg : HandlerCfg) (s : HandlerState) (inp : HandlerInput)
    (h : HandlerInv s) : HandlerInv (handleStep cfg s inp) := by
  unfold HandlerInv at h ⊢
  simp only [handleStep]
  split_ifs <;> simp_all

theorem runHandler_inv (cfg : HandlerCfg) (inputs : List HandlerInput) :
    HandlerInv (runHandler cfg inputs) :=
  foldl_inv (handleStep cfg) HandlerInv
    (fun s inp hs => handleStep_inv cfg s inp hs) inputs initialHandlerState ⟨rfl, rfl⟩

theorem handleStep_after_created (cfg : HandlerCfg) (s : HandlerState)
    (inp : HandlerInput) (h : s.storeCreated = true) :
    (handleStep cfg s inp).storeCreated = true ∧
    (handleStep cfg s inp).sent = s.sent ∧
    (handleStep cfg s inp).workersStarted = s.workersStarted ∧
    (handleStep cfg s inp).storesOpened = s.storesOpened ∧
    (s.halted = false → (handleStep cfg s inp).halted = false →
      (handleStep cfg s inp).store = s.store ++ [inp.hits.getD []]) := by
  simp only [handleStep]
  split_ifs <;> simp_all

theorem runHandler_aux_nolimit (cfg : HandlerCfg) (hlim : cfg.backfillLimit ≤ 0) :
    ∀ (inputs : List HandlerInput) (s : HandlerState),
      s.storeCreated = false → s.halted = false →
      (∀ inp ∈ inputs, inp.stopped = false) →
      (inputs.foldl (handleStep cfg) s).storeCreated = false ∧
      (inputs.foldl (handleStep cfg) s).halted = false ∧
      (inputs.foldl (handleStep cfg) s).storesOpened = s.storesOpened ∧
      (inputs.foldl (handleStep cfg) s).workersStarted = s.workersStarted ∧
      (inputs.foldl (handleStep cfg) s).store = s.store ∧
      (inputs.foldl (handleStep cfg) s).sent
        = s.sent ++ (inputs.map (fun inp => inp.hits.getD [])).flatten := by
  intro inputs
  induction inputs with
  | nil => intro s h1 h2 _; simp [h1, h2]
  | cons inp rest ih =>
    intro s h1 h2 hstop
    have hc2 : ¬(0 < cfg.backfillLimit) := not_lt.mpr hlim
    have hs : inp.stopped = false := hstop inp (List.mem_cons_self inp rest)
    have hstep : handleStep cfg s inp
        = if inp.hits = none then s
          else { s with sent := s.sent ++ inp.hits.getD [] } := by
      simp [handleStep, h1, h2, hs, hc2]
    rw [List.foldl_cons, hstep]
    by_cases hn : inp.hits = none
    · rw [if_pos hn]
      have hrest := ih s h1 h2 (fun x hx => hstop x (List.mem_cons_of_mem _ hx))
      refine ⟨hrest.1, hrest.2.1, hrest.2.2.1, hrest.2.2.2.1, hrest.2.2.2.2.1, ?_⟩
      rw [hrest.2.2.2.2.2]
      simp [hn]
    · rw [if_neg hn]
      have hrest := ih { s with sent := s.sent ++ inp.hits.getD [] } h1 h2
        (fun x hx => hstop x (List.mem_cons_of_mem _ hx))
      refine ⟨hrest.1, hrest.2.1, hrest.2.2.1, hrest.2.2.2.1, hrest.2.2.2.2.1, ?_⟩
      rw [hrest.2.2.2.2.2]
      simp [List.append_assoc]

theorem resolveQF_snd_indexMapping (parsed : List SearchField) (c : SargCtx) :
    (resolveQueryFields parsed c).2.indexMapping = c.indexMapping := by
  cases h : c.queryFields <;> simp [resolveQueryFields, h]

theorem checkIndexOption_fst_obj (i : FTSIndex) (c : SargCtx) (m : InlineMapping) :
    (checkIndexOption i c (some (.obj m))).1
      = { c with indexMapping := some (c.indexMapping.getD m) } := by
  simp only [checkIndexOption]
  split <;> rfl

theorem checkIndexOption_snd_obj (i : FTSIndex) (c : SargCtx) (m : InlineMapping) :
    (checkIndexOption i c (some (.obj m))).2
      = ((c.indexMapping.getD m).dynamic || i.dynamic ||
         (inlineFieldsCompatible i (c.indexMapping.getD m) &&
          inlineDefaultsCompatible i (c.indexMapping.getD m))) := by
  simp only [checkIndexOption]
  cases him : (c.indexMapping.getD m).dynamic <;> cases hid : i.dynamic <;>
    simp [him, hid]

theorem optionsGate_snd (i : FTSIndex) (o : OptionsVal) (c : SargCtx) :
    (optionsGate i (some o) c).2
      = ((checkIndexOption i c o.index).2 && checkUUIDOption i o.indexUUID) := by
  simp only [optionsGate]
  by_cases h : (checkIndexOption i c o.index).2 = true
  · rw [if_pos h]
    simp [h]
  · rw [if_neg h]
    rw [Bool.not_eq_true] at h
    simp [h]

theorem buildQuery_count_of_gate_false (i : FTSIndex) (parsed : List SearchField)
    (options : Option OptionsVal) (c : SargCtx)
    (h : (optionsGate i options (resolveQueryFields parsed c).2).2 = false) :
    (buildQueryAndCheckIfSargable i parsed options c).count = 0 := by
  simp only [buildQueryAndCheckIfSargable, h]
  rfl

theorem all_false_of_mem {α : Type} {p : α → Bool} {l : List α} {x : α}
    (hx : x ∈ l) (hpx : p x = false) : l.all p = false := by
  induction l with
  | nil => cases hx
  | cons a l ih =>
    rcases List.mem_cons.mp hx with h | h
    · rw [h] at hpx
      simp [List.all_cons, hpx]
    · simp [List.all_cons, ih h]

/-!  Claim C1: the top-level-dynamic fast path. -/

/-- A query field with an explicit "keyword" analyzer. -/
def fieldKw : SearchField :=
  { name := "a", type := "text", analyzer := "keyword", dateFormat := "" }

/-- A query field with an explicit "standard" analyzer. -/
def fieldStd : SearchField :=
  { name := "a", type := "text", analyzer := "standard", dateFormat := "" }

/-- A top-level-dynamic index with default analyzer "standard" whose
catalog also records the keyword-analyzed leaf ("a",text,"keyword","")
as a concrete (non-dynamic) entry. -/
def idxDynKw : FTSIndex :=
  { name := "idx", uuid := "u", searchableFields := [(fieldKw, false)],
    indexedCount := 1, dynamic := true, allFieldSearchable := false,
    defaultAnalyzer := "standard", defaultDateTimeParser := "" }

/-- C1, counterexample: a top-level-dynamic descriptor with default
analyzer "standard" and a query field whose explicit analyzer "keyword"
differs from the default is nonetheless reported sargable (matched count
1), because on analyzer incompatibility the fast path falls through to
per-field catalog resolution, which here finds the exact entry — the
claim's "if and only if" (and its "keyword against standard makes the
candidate not sargable") is false. -/
theorem c1_counterexample :
    idxDynKw.dynamic = true ∧
    fieldKw.analyzer ≠ "" ∧
    fieldKw.analyzer ≠ idxDynKw.defaultAnalyzer ∧
    (buildQueryAndCheckIfSargable idxDynKw [fieldKw] none SargCtx.empty).count = 1 := by
  refine ⟨rfl, by decide, by decide, by decide⟩

/-- C1 (amended): for a descriptor with a top-level dynamic mapping, if
every query field's explicit analyzer (when non-empty) equals the default
analyzer then the fast path reports the candidate sargable with matched
count = number of query fields (or the declared indexed count when there
are none); when some analyzer differs the fast path is skipped and the
verdict is instead that of per-field catalog resolution — a "keyword"
field against default "standard" makes the candidate not sargable only
when that resolution also fails. -/
theorem c1_amended (i : FTSIndex) (parsed : List SearchField) (c : SargCtx)
    (hdyn : i.dynamic = true) :
    (dynamicCompatible i ((resolveQueryFields parsed c).1) = true →
      (buildQueryAndCheckIfSargable i parsed none c).count
          = (if ((resolveQueryFields parsed c).1).length = 0 then i.indexedCount
             else (((resolveQueryFields parsed c).1).length : Int)) ∧
      (buildQueryAndCheckIfSargable i parsed none c).indexedCount = i.indexedCount) ∧
    (dynamicCompatible i ((resolveQueryFields parsed c).1) = false →
      buildQueryAndCheckIfSargable i parsed none c
        = resolveFieldsVerdict i ((resolveQueryFields parsed c).1)
            ((resolveQueryFields parsed c).2)) := by
  have hbq : buildQueryAndCheckIfSargable i parsed none c
      = sargableCore i ((resolveQueryFields parsed c).1)
          ((resolveQueryFields parsed c).2) := rfl
  constructor
  · intro hcomp
    rw [hbq]
    simp only [sargableCore, hdyn, hcomp]
    exact ⟨rfl, rfl⟩
  · intro hcomp
    rw [hbq]
    simp only [sargableCore, hdyn, hcomp]
    simp

/-- C1, witness for the amended theorem at a concrete compatible input. -/
theorem c1_amended_witness :
    idxDynKw.dynamic = true ∧
    ((dynamicCompatible idxDynKw ((resolveQueryFields [fieldStd] SargCtx.empty).1) = true →
      (buildQueryAndCheckIfSargable idxDynKw [fieldStd] none SargCtx.empty).count
          = (if ((resolveQueryFields [fieldStd] SargCtx.empty).1).length = 0
             then idxDynKw.indexedCount
             else (((resolveQueryFields [fieldStd] SargCtx.empty).1).length : Int)) ∧
      (buildQueryAndCheckIfSargable idxDynKw [fieldStd] none SargCtx.empty).indexedCount
          = idxDynKw.indexedCount) ∧
     (dynamicCompatible idxDynKw ((resolveQueryFields [fieldStd] SargCtx.empty).1) = false →
      buildQueryAndCheckIfSargable idxDynKw [fieldStd] none SargCtx.empty
        = resolveFieldsVerdict idxDynKw ((resolveQueryFields [fieldStd] SargCtx.empty).1)
            ((resolveQueryFields [fieldStd] SargCtx.empty).2))) :=
  ⟨rfl, c1_amended idxDynKw [fieldStd] SargCtx.empty rfl⟩

/-!  Claim C2: the ancestor walk. -/

/-- The query field "a.b.c" of the claim's example. -/
def fieldAbc : SearchField :=
  { name := "a.b.c", type := "text", analyzer := "standard", dateFormat := "" }

/-- The query field "x.y" of the claim's example. -/
def fieldXy : SearchField :=
  { name := "x.y", type := "text", analyzer := "standard", dateFormat := "" }

/-- The catalog exactly as claim C2 writes it: the dynamic ancestor "a"
is keyed with type text. -/
def idxWalkClaim : FTSIndex :=
  { name := "idx", uuid := "u",
    searchableFields :=
      [({ name := "a.b", type := "text", analyzer := "standard", dateFormat := "" }, false),
       ({ name := "a", type := "text", analyzer := "standard", dateFormat := "" }, true)],
    indexedCount := 2, dynamic := false, allFieldSearchable := false,
    defaultAnalyzer := "standard", defaultDateTimeParser := "" }

/-- The same catalog with the dynamic ancestor keyed as the walk actually
probes it: empty type and empty date format. -/
def idxWalkFixed : FTSIndex :=
  { idxWalkClaim with
    searchableFields :=
      [({ name := "a.b", type := "text", analyzer := "standard", dateFormat := "" }, false),
       ({ name := "a", type := "", analyzer := "standard", dateFormat := "" }, true)] }

/-- C2, counterexample: with the catalog exactly as the claim writes it
— dynamic ancestor keyed ("a",text,"standard","") — the query field
"a.b.c" is NOT sargable (matched count 0), because the ancestor walk
probes catalog keys with an empty type, which miss the typed entry. -/
theorem c2_counterexample :
    lookupField idxWalkClaim.searchableFields fieldAbc = none ∧
    lookupField idxWalkClaim.searchableFields
      { name := "a", type := "text", analyzer := "standard", dateFormat := "" } = some true ∧
    (buildQueryAndCheckIfSargable idxWalkClaim [fieldAbc] none SargCtx.empty).count = 0 := by
  refine ⟨by decide, by decide, by decide⟩

/-- C2 (amended): a query field whose (default-filled) exact 4-tuple is
absent from the catalog is resolved by the ancestor walk — successively
longer dot-joined proper prefixes keyed with the query field's analyzer
and no type — and is satisfied iff some such prefix is recorded dynamic;
failure of the field fails the whole candidate.  The claim's example
holds once the dynamic ancestor is keyed with the empty type: with
catalog {("a.b",text,"standard",""):false, ("a","","standard",""):true},
field "a.b.c" is sargable via ancestor "a" and "x.y" is not. -/
theorem c2_amended (i : FTSIndex) (f : SearchField) (qf : List SearchField)
    (c : SargCtx) (hname : f.name ≠ "") (htype : f.type ≠ "")
    (hfill : fillDefaults i f = f)
    (hmiss : lookupField i.searchableFields f = none)
    (hmem : f ∈ qf) (hdyn : i.dynamic = false) :
    fieldSargable i f = isParentFieldSearchable i f ∧
    isParentFieldSearchable i f
      = (ancestors (splitAtDot f.name)).any (fun p =>
          (lookupField i.searchableFields
            { name := p, type := "", analyzer := f.analyzer, dateFormat := "" }).getD false) ∧
    (isParentFieldSearchable i f = false → (sargableCore i qf c).count = 0) ∧
    (buildQueryAndCheckIfSargable idxWalkFixed [fieldAbc] none SargCtx.empty).count = 1 ∧
    (buildQueryAndCheckIfSargable idxWalkFixed [fieldXy] none SargCtx.empty).count = 0 := by
  have h1 : fieldSargable i f = isParentFieldSearchable i f := by
    simp only [fieldSargable, if_neg hname, if_neg htype, hfill, catalogHit, hmiss]
  refine ⟨h1, ?_, ?_, by decide, by decide⟩
  · by_cases hlen : (splitAtDot f.name).length ≤ 1
    · have hz : (splitAtDot f.name).length - 1 = 0 := Nat.sub_eq_zero_of_le hlen
      simp [isParentFieldSearchable, hlen, ancestors, hz]
    · simp [isParentFieldSearchable, hlen]
  · intro hwalk
    have hfs : fieldSargable i f = false := by rw [h1, hwalk]
    have hall : qf.all (fieldSargable i) = false := all_false_of_mem hmem hfs
    simp [sargableCore, hdyn, resolveFieldsVerdict, hall, failRV]

/-- C2, witness for the amended theorem at the corrected example. -/
theorem c2_amended_witness :
    fieldAbc.name ≠ "" ∧ fieldAbc.type ≠ "" ∧
    fillDefaults idxWalkFixed fieldAbc = fieldAbc ∧
    lookupField idxWalkFixed.searchableFields fieldAbc = none ∧
    fieldAbc ∈ [fieldAbc] ∧ idxWalkFixed.dynamic = false ∧
    (fieldSargable idxWalkFixed fieldAbc = isParentFieldSearchable idxWalkFixed fieldAbc ∧
     isParentFieldSearchable idxWalkFixed fieldAbc
       = (ancestors (splitAtDot fieldAbc.name)).any (fun p =>
           (lookupField idxWalkFixed.searchableFields
             { name := p, type := "", analyzer := fieldAbc.analyzer, dateFormat := "" }).getD false) ∧
     (isParentFieldSearchable idxWalkFixed fieldAbc = false →
       (sargableCore idxWalkFixed [fieldAbc] SargCtx.empty).count = 0) ∧
     (buildQueryAndCheckIfSargable idxWalkFixed [fieldAbc] none SargCtx.empty).count = 1 ∧
     (buildQueryAndCheckIfSargable idxWalkFixed [fieldXy] none SargCtx.empty).count = 0) :=
  ⟨by decide, by decide, by decide, by decide, by decide, rfl,
   c2_amended idxWalkFixed fieldAbc [fieldAbc] SargCtx.empty (by decide) (by decide)
     (by decide) (by decide) (by decide) rfl⟩

/-!  Claim C4: the reported matched / indexed counts. -/

/-- Exhaustive description of the counts sargableCore can report
(index.go lines 474-495 and 608-622). -/
theorem sargableCore_count_cases (i : FTSIndex) (qf : List SearchField) (c : SargCtx) :
    (sargableCore i qf c).count = 0 ∨
    ((sargableCore i qf c).indexedCount = i.indexedCount ∧
     ((sargableCore i qf c).count = (qf.length : Int) ∨
      (qf = [] ∧ (sargableCore i qf c).count = i.indexedCount))) := by
  rw [sargableCore]
  split_ifs with h1 h2
  · right
    exact ⟨rfl, Or.inr ⟨List.length_eq_zero.mp h2, rfl⟩⟩
  · right
    exact ⟨rfl, Or.inl rfl⟩
  · simp only [resolveFieldsVerdict]
    split_ifs with h2 h3 h4
    · right
      exact ⟨rfl, Or.inr ⟨List.length_eq_zero.mp h3, rfl⟩⟩
    · left
      rfl
    · right
      exact ⟨rfl, Or.inl rfl⟩
    · left
      rfl

/-- The same description lifted through the option gates: every verdict
either has matched count 0 or reports the declared indexed count and a
matched count equal to the number of query fields (with the
all-indexed-fields fallback for an empty field set). -/
theorem buildQuery_count_cases (i : FTSIndex) (parsed : List SearchField)
    (options : Option OptionsVal) (c : SargCtx) :
    (buildQueryAndCheckIfSargable i parsed options c).count = 0 ∨
    ((buildQueryAndCheckIfSargable i parsed options c).indexedCount = i.indexedCount ∧
     ((buildQueryAndCheckIfSargable i parsed options c).count
         = (((resolveQueryFields parsed c).1).length : Int) ∨
      ((resolveQueryFields parsed c).1 = [] ∧
       (buildQueryAndCheckIfSargable i parsed options c).count = i.indexedCount))) := by
  simp only [buildQueryAndCheckIfSargable]
  split_ifs with hg
  · exact sargableCore_count_cases i _ _
  · left
    rfl

/-- A not-sargable sargableCore verdict reports indexed count 0: every
failure path returns `rv` with both counts still at their zero values,
and the zero-field fallbacks equate the two counts. -/
theorem sargableCore_count_zero_indexed (i : FTSIndex) (qf : List SearchField)
    (c : SargCtx) (h : (sargableCore i qf c).count = 0) :
    (sargableCore i qf c).indexedCount = 0 := by
  rw [sargableCore] at h ⊢
  split_ifs at h ⊢ with h1 h2
  · simpa using h
  · exfalso
    exact h2 (Int.natCast_eq_zero.mp (by simpa using h))
  · rw [resolveFieldsVerdict] at h ⊢
    split_ifs at h ⊢ with h2 h3 h4
    · simpa using h
    · rfl
    · exfalso
      exact h3 (Int.natCast_eq_zero.mp (by simpa using h))
    · rfl

/-- The same fact lifted through the option gates: a not-sargable
verdict of buildQueryAndCheckIfSargable reports indexed count 0. -/
theorem buildQuery_count_zero_indexed (i : FTSIndex) (parsed : List SearchField)
    (options : Option OptionsVal) (c : SargCtx)
    (h : (buildQueryAndCheckIfSargable i parsed options c).count = 0) :
    (buildQueryAndCheckIfSargable i parsed options c).indexedCount = 0 := by
  simp only [buildQueryAndCheckIfSargable] at h ⊢
  split_ifs at h ⊢ with hg
  · exact sargableCore_count_zero_indexed i _ _ h
  · rfl

/-- A plan-time-only candidate: query value unavailable, no hints,
top-level dynamic with the `_all` field searchable, and five declared
indexed fields. -/
def idxPlan : FTSIndex :=
  { name := "idx", uuid := "u", searchableFields := [], indexedCount := 5,
    dynamic := true, allFieldSearchable := true, defaultAnalyzer := "standard",
    defaultDateTimeParser := "" }

/-- C4, counterexample: the plan-time shortcut (query value unavailable,
no resolvable fields, dynamic with `_all` searchable) reports MaxInt64
for both matched and indexed counts, not the descriptor's declared total
(here 5) — refuting "the returned indexed count equals the descriptor's
declared total indexed-field count" and "matched count equals the
declared total" for this sargable evaluation. -/
theorem c4_counterexample :
    idxPlan.indexedCount = 5 ∧
    (Sargable idxPlan false QExpr.other [] none SargCtx.empty).count = maxInt64 ∧
    (Sargable idxPlan false QExpr.other [] none SargCtx.empty).indexedCount = maxInt64 ∧
    maxInt64 ≠ 5 := by
  refine ⟨rfl, rfl, rfl, by decide⟩

/-- C4 (amended): on every evaluation judged sargable (non-zero count)
by buildQueryAndCheckIfSargable, the indexed count equals the declared
total and the matched count equals the number of query fields — except
that with zero query fields the matched count equals the declared total
(requiring `_all` searchable outside the dynamic fast path); evaluations
judged not sargable report indexed count 0; and the plan-time shortcut
(query unavailable, no hints, dynamic, `_all` searchable) reports
MaxInt64 for both counts. -/
theorem c4_amended (i : FTSIndex) (parsed : List SearchField)
    (options : Option OptionsVal) (c : SargCtx) (qe : QExpr) :
    ((buildQueryAndCheckIfSargable i parsed options c).count ≠ 0 →
      (buildQueryAndCheckIfSargable i parsed options c).indexedCount = i.indexedCount ∧
      ((buildQueryAndCheckIfSargable i parsed options c).count
          = (((resolveQueryFields parsed c).1).length : Int) ∨
       ((resolveQueryFields parsed c).1 = [] ∧
        (buildQueryAndCheckIfSargable i parsed options c).count = i.indexedCount))) ∧
    ((buildQueryAndCheckIfSargable i parsed options c).count = 0 →
      (buildQueryAndCheckIfSargable i parsed options c).indexedCount = 0) ∧
    (i.dynamic = true → i.allFieldSearchable = true → c.queryFields = none →
      Sargable i false qe parsed options c
        = { count := maxInt64, indexedCount := maxInt64, exact := true,
            ctx := c, err := none }) := by
  refine ⟨?_, ?_, ?_⟩
  · intro hcount
    rcases buildQuery_count_cases i parsed options c with h | h
    · exact absurd h hcount
    · exact h
  · exact buildQuery_count_zero_indexed i parsed options c
  · intro hd ha hq
    have h1 : (false = false ∧ ((c.queryFields.getD
        ([] : List SearchField)).length = 0)) := ⟨rfl, by rw [hq]; rfl⟩
    have h2 : (i.dynamic && i.allFieldSearchable) = true := by rw [hd, ha]; rfl
    exact Sargable_eq_short qe parsed options h1 h2

/-- C4, witness: the amended theorem applied at a build-time sargable
evaluation, at a concrete not-sargable evaluation, and at the concrete
plan-time shortcut. -/
theorem c4_amended_witness :
    ((buildQueryAndCheckIfSargable idxDynKw [fieldKw] none SargCtx.empty).count ≠ 0 ∧
     (buildQueryAndCheckIfSargable idxDynKw [fieldKw] none SargCtx.empty).indexedCount
        = idxDynKw.indexedCount) ∧
    ((buildQueryAndCheckIfSargable idxWalkClaim [fieldAbc] none SargCtx.empty).count = 0 ∧
     (buildQueryAndCheckIfSargable idxWalkClaim [fieldAbc] none SargCtx.empty).indexedCount
        = 0) ∧
    (idxPlan.dynamic = true ∧ idxPlan.allFieldSearchable = true ∧
     Sargable idxPlan false QExpr.other [] none SargCtx.empty
       = { count := maxInt64, indexedCount := maxInt64, exact := true,
           ctx := SargCtx.empty, err := none }) :=
  ⟨⟨by decide,
    ((c4_amended idxDynKw [fieldKw] none SargCtx.empty QExpr.other).1 (by decide)).1⟩,
   ⟨by decide,
    (c4_amended idxWalkClaim [fieldAbc] none SargCtx.empty QExpr.other).2.1 (by decide)⟩,
   ⟨rfl, rfl,
    (c4_amended idxPlan [] none SargCtx.empty QExpr.other).2.2 rfl rfl rfl⟩⟩

/-!  Claim C5: explicit index-name / indexUUID option mismatches. -/

/-- C5: an options value whose "index" entry is a string different from
the candidate's name, or whose "indexUUID" entry is a string different
from the candidate's id, yields matched count 0 with no error, whatever
the query fields are. -/
theorem c5_option_mismatch (i : FTSIndex) (parsed : List SearchField) (c : SargCtx)
    (o : OptionsVal) (s u : String) :
    (o.index = some (.str s) → i.name ≠ s →
      (buildQueryAndCheckIfSargable i parsed (some o) c).count = 0 ∧
      (buildQueryAndCheckIfSargable i parsed (some o) c).err = none) ∧
    (o.indexUUID = some (.str u) → i.uuid ≠ u →
      (buildQueryAndCheckIfSargable i parsed (some o) c).count = 0 ∧
      (buildQueryAndCheckIfSargable i parsed (some o) c).err = none) := by
  constructor
  · intro hidx hne
    refine ⟨?_, buildQuery_err_none i parsed (some o) c⟩
    apply buildQuery_count_of_gate_false
    rw [optionsGate_snd, hidx]
    have hb : (i.name == s) = false := by simp [hne]
    simp [checkIndexOption, hb]
  · intro huuid hne
    refine ⟨?_, buildQuery_err_none i parsed (some o) c⟩
    apply buildQuery_count_of_gate_false
    rw [optionsGate_snd, huuid]
    have hb : (i.uuid == u) = false := by simp [hne]
    simp [checkUUIDOption, hb]

/-- An options value naming a different index and a different UUID. -/
def optsMismatch : OptionsVal :=
  { index := some (.str "other"), indexUUID := some (.str "zz") }

/-- C5, witness at a concrete mismatching options value. -/
theorem c5_witness :
    optsMismatch.index = some (.str "other") ∧ idxWalkFixed.name ≠ "other" ∧
    (buildQueryAndCheckIfSargable idxWalkFixed [fieldAbc]
        (some optsMismatch) SargCtx.empty).count = 0 ∧
    (buildQueryAndCheckIfSargable idxWalkFixed [fieldAbc]
        (some optsMismatch) SargCtx.empty).err = none :=
  ⟨rfl, by decide,
   ((c5_option_mismatch idxWalkFixed [fieldAbc] SargCtx.empty optsMismatch
      "other" "zz").1 rfl (by decide)).1,
   ((c5_option_mismatch idxWalkFixed [fieldAbc] SargCtx.empty optsMismatch
      "other" "zz").1 rfl (by decide)).2⟩

/-!  Claim C6: the inline index-mapping option. -/

/-- The query field of the C6 scenario, present in the candidate. -/
def fieldB : SearchField :=
  { name := "b", type := "text", analyzer := "standard", dateFormat := "" }

/-- A non-dynamic candidate whose catalog holds only ("b",text,...). -/
def idxInline : FTSIndex :=
  { name := "idx", uuid := "u", searchableFields := [(fieldB, false)],
    indexedCount := 1, dynamic := false, allFieldSearchable := false,
    defaultAnalyzer := "standard", defaultDateTimeParser := "" }

/-- An inline mapping that is itself dynamic and declares a field the
candidate's catalog does not contain. -/
def inlineDyn : InlineMapping :=
  { searchableFields :=
      [({ name := "a", type := "text", analyzer := "keyword", dateFormat := "" }, false)],
    dynamic := true, defaultAnalyzer := "", defaultDateTimeParser := "" }

/-- An options value carrying that inline mapping. -/
def optsInline : OptionsVal :=
  { index := some (.obj inlineDyn), indexUUID := none }

/-- C6, counterexample: the candidate is not dynamic, the inline mapping
declares a field the catalog disagrees with (no entry), yet the verdict
is sargable (count 1): because the inline mapping itself is dynamic the
code skips the compatibility checks — the claim's "unless the candidate
index is itself fully dynamic ... any disagreement fails that candidate"
is false. -/
theorem c6_counterexample :
    idxInline.dynamic = false ∧
    inlineDyn.searchableFields
      = [({ name := "a", type := "text", analyzer := "keyword", dateFormat := "" }, false)] ∧
    lookupField idxInline.searchableFields
      { name := "a", type := "text", analyzer := "keyword", dateFormat := "" } = none ∧
    (buildQueryAndCheckIfSargable idxInline [fieldB] (some optsInline) SargCtx.empty).count
      = 1 := by
  refine ⟨rfl, rfl, by decide, by decide⟩

/-- C6 (amended): an inline index-mapping option is converted once and
cached in the context (a cached mapping is reused in place of the raw
one); unless the inline mapping or the candidate is itself fully dynamic,
every field the inline mapping declares must agree with the candidate
catalog's entry for the same key and its non-empty defaults must equal
the candidate's, any disagreement failing the candidate (count 0, no
error) while the context — including the cached mapping — is still
returned. -/
theorem c6_amended (i : FTSIndex) (parsed : List SearchField) (c : SargCtx)
    (o : OptionsVal) (raw : InlineMapping) (ho : o.index = some (.obj raw)) :
    ((buildQueryAndCheckIfSargable i parsed (some o) c).ctx.indexMapping
        = some (c.indexMapping.getD raw)) ∧
    ((checkIndexOption i (resolveQueryFields parsed c).2 o.index).2
        = ((c.indexMapping.getD raw).dynamic || i.dynamic ||
           (inlineFieldsCompatible i (c.indexMapping.getD raw) &&
            inlineDefaultsCompatible i (c.indexMapping.getD raw)))) ∧
    ((c.indexMapping.getD raw).dynamic = false → i.dynamic = false →
      (inlineFieldsCompatible i (c.indexMapping.getD raw) &&
       inlineDefaultsCompatible i (c.indexMapping.getD raw)) = false →
      (buildQueryAndCheckIfSargable i parsed (some o) c).count = 0 ∧
      (buildQueryAndCheckIfSargable i parsed (some o) c).err = none) := by
  refine ⟨?_, ?_, ?_⟩
  · rw [buildQuery_ctx, optionsGate_fst, ho, checkIndexOption_fst_obj]
    simp [resolveQF_snd_indexMapping]
  · rw [ho, checkIndexOption_snd_obj, resolveQF_snd_indexMapping]
  · intro hd1 hd2 hcompat
    refine ⟨?_, buildQuery_err_none i parsed (some o) c⟩
    apply buildQuery_count_of_gate_false
    rw [optionsGate_snd, ho, checkIndexOption_snd_obj, resolveQF_snd_indexMapping,
      hd1, hd2, hcompat]
    simp

/-- C6, witness at the concrete dynamic inline mapping. -/
theorem c6_amended_witness :
    optsInline.index = some (.obj inlineDyn) ∧
    ((buildQueryAndCheckIfSargable idxInline [fieldB] (some optsInline)
        SargCtx.empty).ctx.indexMapping
      = some (SargCtx.empty.indexMapping.getD inlineDyn)) ∧
    ((checkIndexOption idxInline (resolveQueryFields [fieldB] SargCtx.empty).2
        optsInline.index).2
      = ((SargCtx.empty.indexMapping.getD inlineDyn).dynamic || idxInline.dynamic ||
         (inlineFieldsCompatible idxInline (SargCtx.empty.indexMapping.getD inlineDyn) &&
          inlineDefaultsCompatible idxInline (SargCtx.empty.indexMapping.getD inlineDyn)))) :=
  ⟨rfl,
   (c6_amended idxInline [fieldB] SargCtx.empty optsInline inlineDyn rfl).1,
   (c6_amended idxInline [fieldB] SargCtx.empty optsInline inlineDyn rfl).2.1⟩

/-!  Claim C7: pageability. -/

/-- A raw query value that embeds a from/size/sort pagination block but
has no OBJECT-typed "query" field. -/
def pagVal : JVal := .obj [("from", .num 5)]

/-- C7, counterexample: a raw query value embedding its own "from" entry
but lacking an OBJECT-typed "query" field is still declared pageable
(window permitting) — the pagination test is guarded by the "query"
field check, so the claim's "returns false whenever the raw query value
already embeds its own from/size/sort pagination block" is false. -/
theorem c7_counterexample :
    CheckForPagination pagVal = true ∧
    hasQueryObjectField pagVal = false ∧
    pageable (some pagVal) 0 1 10000 = true := by
  refine ⟨rfl, rfl, by decide⟩

/-- C7 (amended): pageable returns false whenever the raw query value
has an OBJECT-typed "query" field and embeds its own from/size/sort
block; in every other case (including a missing query value) it returns
true iff offset+limit does not exceed the maximum result window. -/
theorem c7_amended (v : JVal) (offset limit maxResultWindow : Int) :
    (hasQueryObjectField v = true → CheckForPagination v = true →
      pageable (some v) offset limit maxResultWindow = false) ∧
    ((hasQueryObjectField v && CheckForPagination v) = false →
      (pageable (some v) offset limit maxResultWindow = true ↔
        offset + limit ≤ maxResultWindow)) ∧
    (pageable none offset limit maxResultWindow = true ↔
      offset + limit ≤ maxResultWindow) := by
  refine ⟨?_, ?_, ?_⟩
  · intro h1 h2
    simp [pageable, h1, h2]
  · intro h
    simp [pageable, h]
  · simp [pageable]

/-- A raw query value with both an OBJECT-typed "query" field and an
embedded pagination entry. -/
def pagValQ : JVal := .obj [("query", .obj []), ("from", .num 5)]

/-- C7, witness: the guarded pagination test fires on a search-request
shaped value and pageable returns false. -/
theorem c7_amended_witness :
    hasQueryObjectField pagValQ = true ∧
    CheckForPagination pagValQ = true ∧
    pageable (some pagValQ) 0 1 10000 = false :=
  ⟨rfl, rfl, (c7_amended pagValQ 0 1 10000).1 rfl rfl⟩

/-!  Claim C3: the one-way transition to the backfill store. -/

/-- C3: once a session's producer state records the backfill store as
created, exactly one store was ever opened and exactly one drain worker
ever started; every further step keeps the store, never delivers
directly (the `sent` log is frozen), keeps the worker count, and — while
the session is still running and does not abort at this step — appends
the incoming batch to the store. -/
theorem c3_backfill_one_way (cfg : HandlerCfg) (inputs : List HandlerInput)
    (inp : HandlerInput) (h : (runHandler cfg inputs).storeCreated = true) :
    (runHandler cfg inputs).storesOpened = 1 ∧
    (runHandler cfg inputs).workersStarted = 1 ∧
    (handleStep cfg (runHandler cfg inputs) inp).storeCreated = true ∧
    (handleStep cfg (runHandler cfg inputs) inp).sent = (runHandler cfg inputs).sent ∧
    (handleStep cfg (runHandler cfg inputs) inp).workersStarted = 1 ∧
    ((runHandler cfg inputs).halted = false →
      (handleStep cfg (runHandler cfg inputs) inp).halted = false →
      (handleStep cfg (runHandler cfg inputs) inp).store
        = (runHandler cfg inputs).store ++ [inp.hits.getD []]) := by
  have hinv := runHandler_inv cfg inputs
  have hop : (runHandler cfg inputs).storesOpened = 1 := by
    rw [hinv.1, if_pos h]
  have hwk : (runHandler cfg inputs).workersStarted = 1 := by
    rw [hinv.2, if_pos h]
  have hstep := handleStep_after_created cfg (runHandler cfg inputs) inp h
  exact ⟨hop, hwk, hstep.1, hstep.2.1, by rw [hstep.2.2.1, hwk], hstep.2.2.2.2⟩

/-- A session configuration whose channel has capacity 0 and whose
backfill limit is positive. -/
def cfgSpill : HandlerCfg := { backfillLimit := 1, chanCap := 0 }

/-- A batch of one hit arriving at an empty but capacity-0 channel. -/
def inpBatch : HandlerInput :=
  { hits := some [1], chanLen := 0, curBackfillOver := false,
    drainFinished := false, stopped := false }

/-- C3, witness: after one overflow-triggering batch the store exists,
and the theorem's guarantees hold for the next batch. -/
theorem c3_backfill_one_way_witness :
    (runHandler cfgSpill [inpBatch]).storeCreated = true ∧
    ((runHandler cfgSpill [inpBatch]).storesOpened = 1 ∧
     (runHandler cfgSpill [inpBatch]).workersStarted = 1 ∧
     (handleStep cfgSpill (runHandler cfgSpill [inpBatch]) inpBatch).storeCreated = true ∧
     (handleStep cfgSpill (runHandler cfgSpill [inpBatch]) inpBatch).sent
        = (runHandler cfgSpill [inpBatch]).sent ∧
     (handleStep cfgSpill (runHandler cfgSpill [inpBatch]) inpBatch).workersStarted = 1 ∧
     ((runHandler cfgSpill [inpBatch]).halted = false →
       (handleStep cfgSpill (runHandler cfgSpill [inpBatch]) inpBatch).halted = false →
       (handleStep cfgSpill (runHandler cfgSpill [inpBatch]) inpBatch).store
         = (runHandler cfgSpill [inpBatch]).store ++ [inpBatch.hits.getD []])) :=
  ⟨by decide, c3_backfill_one_way cfgSpill [inpBatch] inpBatch (by decide)⟩

/-!  Claim C8: uniform teardown. -/

/-- C8: on every exit of a search session — end-of-stream, stream error,
cancellation, capacity ceiling — the deferred teardown signals
completion, waits for the drain worker, closes the output channel, and
deletes the backfill temp file exactly when one was created; the trace
is identical for every exit kind. -/
theorem c8_teardown_uniform (cfg : HandlerCfg) (inputs : List HandlerInput)
    (e e' : ExitKind) :
    (searchSessionTrace cfg inputs e).signaledDone = true ∧
    (searchSessionTrace cfg inputs e).waitedForWorker = true ∧
    (searchSessionTrace cfg inputs e).closedChannel = true ∧
    (searchSessionTrace cfg inputs e).deletedBackfillFile
        = (runHandler cfg inputs).storeCreated ∧
    searchSessionTrace cfg inputs e = searchSessionTrace cfg inputs e' :=
  ⟨rfl, rfl, rfl, rfl, rfl⟩

/-!  Claim C9: determinism and idempotence of Sargable. -/

/-- C9: Sargable's verdict (matched count, indexed count, exact, error)
does not depend on the iteration order of the query-field set (two calls
on identical inputs, hence on permuted parses, agree), and feeding the
returned context back into an identical second call reproduces the first
result exactly. -/
theorem c9_deterministic_idempotent (i : FTSIndex) (qa : Bool) (qe : QExpr)
    (parsed parsed' : List SearchField) (options : Option OptionsVal) (c : SargCtx)
    (hperm : parsed.Perm parsed') :
    ((Sargable i qa qe parsed options c).count
        = (Sargable i qa qe parsed' options c).count ∧
     (Sargable i qa qe parsed options c).indexedCount
        = (Sargable i qa qe parsed' options c).indexedCount ∧
     (Sargable i qa qe parsed options c).exact
        = (Sargable i qa qe parsed' options c).exact ∧
     (Sargable i qa qe parsed options c).err
        = (Sargable i qa qe parsed' options c).err) ∧
    Sargable i qa qe parsed options (Sargable i qa qe parsed options c).ctx
      = Sargable i qa qe parsed options c :=
  ⟨Sargable_verdict_perm i qa qe options c hperm,
   Sargable_idem i qa qe parsed options c⟩

/-- C9, witness at a concrete call: the reflexive permutation and the
second call through the returned context. -/
theorem c9_witness :
    ([fieldKw].Perm [fieldKw]) ∧
    Sargable idxDynKw true QExpr.other [fieldKw] none
        (Sargable idxDynKw true QExpr.other [fieldKw] none SargCtx.empty).ctx
      = Sargable idxDynKw true QExpr.other [fieldKw] none SargCtx.empty :=
  ⟨List.Perm.refl _,
   (c9_deterministic_idempotent idxDynKw true QExpr.other [fieldKw] [fieldKw] none
      SargCtx.empty (List.Perm.refl _)).2⟩

/-!  Claim C10: sessions with backfill disabled. -/

/-- C10: with a non-positive backfill space limit the handler never
creates a store and never starts a drain worker, and (as long as the
consumer does not cancel) every decoded batch is delivered directly to
the output channel, in arrival order, for the whole session. -/
theorem c10_direct_delivery (cfg : HandlerCfg) (inputs : List HandlerInput)
    (hlim : cfg.backfillLimit ≤ 0)
    (hstop : ∀ inp ∈ inputs, inp.stopped = false) :
    (runHandler cfg inputs).storeCreated = false ∧
    (runHandler cfg inputs).storesOpened = 0 ∧
    (runHandler cfg inputs).workersStarted = 0 ∧
    (runHandler cfg inputs).store = [] ∧
    (runHandler cfg inputs).halted = false ∧
    (runHandler cfg inputs).sent
      = (inputs.map (fun inp => inp.hits.getD [])).flatten := by
  have h := runHandler_aux_nolimit cfg hlim inputs initialHandlerState rfl rfl hstop
  refine ⟨h.1, h.2.2.1, h.2.2.2.1, h.2.2.2.2.1, h.2.1, ?_⟩
  simpa [initialHandlerState] using h.2.2.2.2.2

/-- A configuration with backfill disabled. -/
def cfgNoSpill : HandlerCfg := { backfillLimit := 0, chanCap := 0 }

/-- C10, witness: two batches against a full, capacity-0 channel with
backfill disabled are both delivered directly. -/
theorem c10_direct_delivery_witness :
    cfgNoSpill.backfillLimit ≤ 0 ∧
    (∀ inp ∈ [inpBatch, inpBatch], inp.stopped = false) ∧
    (runHandler cfgNoSpill [inpBatch, inpBatch]).storeCreated = false ∧
    (runHandler cfgNoSpill [inpBatch, inpBatch]).workersStarted = 0 ∧
    (runHandler cfgNoSpill [inpBatch, inpBatch]).sent
      = ([inpBatch, inpBatch].map (fun inp => inp.hits.getD [])).flatten :=
  ⟨by decide, by decide,
   (c10_direct_delivery cfgNoSpill [inpBatch, inpBatch] (by decide) (by decide)).1,
   (c10_direct_delivery cfgNoSpill [inpBatch, inpBatch] (by decide) (by decide)).2.2.1,
   (c10_direct_delivery cfgNoSpill [inpBatch, inpBatch] (by decide) (by decide)).2.2.2.2.2⟩

end N1fty
